import Mathlib

/-!
Verification development for the power-scouter workout tracker (src/app.py).

The relational store is embedded shallowly: each table is a list of row
structures, SQL `REAL` columns become `ℚ`, and every CRUD helper from
src/app.py is translated into a pure Lean function acting on those lists.
Streamlit handler blocks (the Add Set click and the Save Entire Workout
click) are translated as functions of the session state they read.
-/

namespace PowerScouter

/-- A row of the `workout_sets` table (src/app.py lines 45-56). -/
structure WorkoutSetRow where
  id : Nat
  user_id : Nat
  session_id : Nat
  exercise_id : Nat
  weight : ℚ
  reps : Nat
  set_number : Nat
  rpe_rating : Nat
  deriving DecidableEq, Repr

/-- The caller-supplied columns of a `workout_sets` insert: everything except
the autoincrement `id` (the argument list of `log_set`, src/app.py line 254). -/
structure SetFields where
  user_id : Nat
  session_id : Nat
  exercise_id : Nat
  weight : ℚ
  reps : Nat
  set_number : Nat
  rpe_rating : Nat
  deriving DecidableEq, Repr

/-- Forget the storage-assigned `id` of a row, keeping the logical columns. -/
def rowFields (r : WorkoutSetRow) : SetFields :=
  { user_id := r.user_id, session_id := r.session_id, exercise_id := r.exercise_id,
    weight := r.weight, reps := r.reps, set_number := r.set_number,
    rpe_rating := r.rpe_rating }

/-- A row of the `sessions` table (src/app.py lines 37-43). -/
structure SessionRow where
  id : Nat
  user_id : Nat
  name : String
  date : String
  notes : String
  deriving DecidableEq, Repr

/-- A row of the `exercises` table (src/app.py lines 25-28). -/
structure ExerciseRow where
  id : Nat
  name : String
  description : String
  deriving DecidableEq, Repr

/-- A row of the `users` table (src/app.py lines 15-19 plus profile columns). -/
structure UserRow where
  id : Nat
  username : String
  password_hash : String
  is_admin : Nat
  deriving DecidableEq, Repr

/-- The fresh AUTOINCREMENT id sqlite assigns to the next inserted row. -/
def nextRowId (db : List WorkoutSetRow) : Nat :=
  db.foldr (fun r m => max r.id m) 0 + 1

/-- `log_set` (src/app.py lines 254-262): one INSERT into `workout_sets`,
committed by its own `conn.commit()` before the function returns. -/
def log_set (db : List WorkoutSetRow) (f : SetFields) : List WorkoutSetRow :=
  db ++ [{ id := nextRowId db, user_id := f.user_id, session_id := f.session_id,
           exercise_id := f.exercise_id, weight := f.weight, reps := f.reps,
           set_number := f.set_number, rpe_rating := f.rpe_rating }]

/-- `delete_session` (src/app.py lines 245-251): deletes the session's
`workout_sets` rows and the `sessions` row in one transaction. -/
def delete_session (sessions : List SessionRow) (db : List WorkoutSetRow) (sid : Nat) :
    List SessionRow × List WorkoutSetRow :=
  (sessions.filter (fun s => !(s.id == sid)), db.filter (fun r => !(r.session_id == sid)))

/-- `get_workout_sets_by_session` (src/app.py lines 285-294): the rows of
`workout_sets` with the given `session_id`, inner-joined with `exercises`
(a row survives the JOIN exactly when its exercise id exists).  The
`ORDER BY e.name, ws.set_number` clause only permutes the result and is not
modelled; every property stated below is order-insensitive. -/
def get_workout_sets_by_session (db : List WorkoutSetRow) (exercises : List ExerciseRow)
    (sid : Nat) : List WorkoutSetRow :=
  db.filter (fun r => r.session_id == sid && exercises.any (fun e => e.id == r.exercise_id))

/-- `delete_workout_sets` (src/app.py lines 296-304): early return on an empty
id list, otherwise `DELETE FROM workout_sets WHERE id IN (...)`. -/
def delete_workout_sets (db : List WorkoutSetRow) (set_ids : List Nat) : List WorkoutSetRow :=
  if set_ids = [] then db
  else db.filter (fun r => !(set_ids.contains r.id))

/-- `authenticate_user` (src/app.py lines 120-128).  The pbkdf2 verify routine
is external (passlib); it is passed in as the `verify_password` argument.
Returns `(row.id, row.is_admin)` on success and `(none, none)` otherwise. -/
def authenticate_user (verify_password : String → String → Bool) (users : List UserRow)
    (username password : String) : Option Nat × Option Nat :=
  match users.find? (fun u => u.username == username) with
  | some row =>
      if verify_password password row.password_hash then (some row.id, some row.is_admin)
      else (none, none)
  | none => (none, none)

/-- `needle` occurs at the head of `haystack` (character lists). -/
def charsHaveLead : List Char → List Char → Bool
  | [], _ => true
  | _ :: _, [] => false
  | a :: as, b :: bs => a == b && charsHaveLead as bs

/-- `needle` occurs somewhere inside `haystack` (character lists). -/
def charsHaveSub (needle : List Char) : List Char → Bool
  | [] => charsHaveLead needle []
  | b :: bs => charsHaveLead needle (b :: bs) || charsHaveSub needle bs

/-- sqlite `e.name LIKE '%term%'` (src/app.py line 193): case-insensitive
substring match. -/
def likeContains (name term : String) : Bool :=
  charsHaveSub term.toLower.toList name.toLower.toList

/-- `get_exercises` (src/app.py lines 179-198).  The category filter is added
to the query only when `category_ids` is truthy in Python, i.e. neither `None`
nor the empty list; the name filter only when `search_term` is a nonempty
string.  `exercise_categories` is the link table (exercise_id, category_id).
`SELECT DISTINCT` and `ORDER BY e.name` reduce to a plain filter over the
`exercises` table because each exercise appears once in it. -/
def get_exercises (exercises : List ExerciseRow) (exercise_categories : List (Nat × Nat))
    (category_ids : Option (List Nat)) (search_term : String) : List ExerciseRow :=
  let catFilterOn := match category_ids with
    | none => false
    | some l => !l.isEmpty
  let step1 := if catFilterOn then
      exercises.filter (fun e => exercise_categories.any (fun lk =>
        lk.1 == e.id && (category_ids.getD []).contains lk.2))
    else exercises
  if search_term ≠ "" then step1.filter (fun e => likeContains e.name search_term) else step1

/-- A buffered set in `st.session_state.workout_log`: the
`(total_weight, reps, rpe)` tuple appended by the Add Set handler. -/
abbrev BufTuple := ℚ × Nat × Nat

/-- `st.session_state.workout_log`: exercise id to ordered buffered sets,
a Python dict kept in insertion order. -/
abbrev WorkoutLog := List (Nat × List BufTuple)

/-- The validation failures of the Add Set handler (src/app.py lines 623-626). -/
inductive ValidationError
  | MissingBodyweight
  | InvalidReps
  deriving DecidableEq, Repr

/-- The Add Set click handler (src/app.py lines 607-631).
`weight_kg` is `profile['weight_kg']` (`none` when unset); `profile_weight`
defaults to `0.0`.  Effective resistance is `profile_weight + added_weight`
when the bodyweight box is checked, else `added_weight` alone.  On a
validation failure the handler shows an error and leaves `sets_list`
untouched; on success it appends the new tuple. -/
def addSet (weight_kg : Option ℚ) (bodyweight : Bool) (added_weight : ℚ)
    (reps rpe : Nat) (sets_list : List BufTuple) :
    List BufTuple × Option ValidationError :=
  let profile_weight := weight_kg.getD 0
  let total_weight := if bodyweight then profile_weight + added_weight else added_weight
  if bodyweight && decide (profile_weight = 0) then (sets_list, some .MissingBodyweight)
  else if reps ≤ 0 then (sets_list, some .InvalidReps)
  else (sets_list ++ [(total_weight, reps, rpe)], none)

/-- The column tuple `log_set` receives for the buffered set `q.2` of exercise
`ex` when `enumerate(sets, start=1)` yields position `q.1`
(src/app.py lines 660-662). -/
def mkSetFields (uid sid ex : Nat) (q : Nat × BufTuple) : SetFields :=
  { user_id := uid, session_id := sid, exercise_id := ex,
    weight := q.2.1, reps := q.2.2.1, set_number := q.1, rpe_rating := q.2.2.2 }

/-- The column tuples generated for a single buffer entry `(ex, sets)` of the
save loop: `sets` paired with positions 1..N. -/
def entryRows (uid sid ex : Nat) (sets : List BufTuple) : List SetFields :=
  ((List.range' 1 sets.length).zip sets).map (mkSetFields uid sid ex)

/-- The sequence of `log_set` calls issued by the Save Entire Workout handler
(src/app.py lines 660-662): for each buffer entry in dict order, its sets
paired with `set_number` 1..N via `enumerate(sets, start=1)`. -/
def bufferInserts (uid sid : Nat) (workout_log : WorkoutLog) : List SetFields :=
  workout_log.flatMap (fun p =>
    ((List.range' 1 p.2.length).zip p.2).map (mkSetFields uid sid p.1))

/-- The Save Entire Workout handler (src/app.py lines 655-667): warns and
writes nothing on an empty buffer, otherwise performs the `log_set` calls of
`bufferInserts` in order.  Each `log_set` commits separately; this is the
state after all of them ran. -/
def saveEntireWorkout (db : List WorkoutSetRow) (uid sid : Nat)
    (workout_log : WorkoutLog) : List WorkoutSetRow :=
  if workout_log = [] then db
  else (bufferInserts uid sid workout_log).foldl log_set db

/-- The store visible after only the first `k` of the handler's `log_set`
calls have run: because every `log_set` opens its own connection and commits
before returning, an exception thrown after `k` calls leaves exactly these
rows durably stored. -/
def saveStepsCommitted (db : List WorkoutSetRow) (uid sid : Nat)
    (workout_log : WorkoutLog) (k : Nat) : List WorkoutSetRow :=
  ((bufferInserts uid sid workout_log).take k).foldl log_set db

/-- The Brzycki expression of the reports,
`weight * 36 / (37 - reps)` (src/app.py lines 737 and 807). -/
def one_rm (weight : ℚ) (reps : Nat) : ℚ := weight * 36 / (37 - (reps : ℚ))

/-- Volume load of one set, `weight * reps` (src/app.py lines 744 and 791). -/
def volume_load (weight : ℚ) (reps : Nat) : ℚ := weight * (reps : ℚ)

/-- `data['1RM'] = data['weight'] * 36 / (37 - data['reps'])`
(src/app.py line 737): the By Exercise report computes the column on every
row of the query result, with no filtering on `reps`. -/
def one_rm_column (rows : List WorkoutSetRow) : List (WorkoutSetRow × ℚ) :=
  rows.map (fun r => (r, r.weight * 36 / (37 - (r.reps : ℚ))))

/-- `data['volume_load'] = data['weight'] * data['reps']`
(src/app.py line 744). -/
def volume_load_column (rows : List WorkoutSetRow) : List (WorkoutSetRow × ℚ) :=
  rows.map (fun r => (r, r.weight * (r.reps : ℚ)))

/-- `(session_sets['weight'] * session_sets['reps']).sum()`
(src/app.py line 791). -/
def total_volume_load (rows : List WorkoutSetRow) : ℚ :=
  (rows.map (fun r => r.weight * (r.reps : ℚ))).sum

/-- `len(session_sets)` (src/app.py line 792). -/
def total_sets (rows : List WorkoutSetRow) : Nat := rows.length

/-- `session_sets['reps'].sum()` (src/app.py line 793). -/
def total_reps (rows : List WorkoutSetRow) : Nat :=
  (rows.map (fun r => r.reps)).sum

/-- Number of tuples in the buffer, computed directly from the inputs. -/
def bufferSetCount (wl : WorkoutLog) : Nat :=
  (wl.map (fun p => p.2.length)).sum

/-- Sum of the buffered `reps` inputs, computed directly from the inputs. -/
def bufferTotalReps (wl : WorkoutLog) : Nat :=
  (wl.map (fun p => (p.2.map (fun t => t.2.1)).sum)).sum

/-- `Σ weight*reps` over the buffered input tuples, computed directly. -/
def bufferVolumeLoad (wl : WorkoutLog) : ℚ :=
  (wl.map (fun p => (p.2.map (fun t => t.1 * (t.2.1 : ℚ))).sum)).sum

/-- Observation: the persisted rows of one `(session, exercise)` pair, in
storage order — the population whose `set_number` column §3 of the spec
constrains. -/
def setsForSessionExercise (db : List WorkoutSetRow) (sid ex : Nat) : List WorkoutSetRow :=
  db.filter (fun r => r.session_id == sid && r.exercise_id == ex)

/-! ## Helper lemmas -/

theorem log_set_map_rowFields (db : List WorkoutSetRow) (f : SetFields) :
    (log_set db f).map rowFields = db.map rowFields ++ [f] := by
  simp [log_set, rowFields]

theorem foldl_log_set_map_rowFields (l : List SetFields) (db : List WorkoutSetRow) :
    (l.foldl log_set db).map rowFields = db.map rowFields ++ l := by
  induction l generalizing db with
  | nil => simp
  | cons f t ih => simp [List.foldl_cons, ih, log_set_map_rowFields]

theorem saveEntireWorkout_map_rowFields (db : List WorkoutSetRow) (uid sid : Nat)
    (wl : WorkoutLog) :
    (saveEntireWorkout db uid sid wl).map rowFields =
      db.map rowFields ++ bufferInserts uid sid wl := by
  by_cases h : wl = [] <;>
    simp [saveEntireWorkout, h, foldl_log_set_map_rowFields, bufferInserts]

theorem saveStepsCommitted_map_rowFields (db : List WorkoutSetRow) (uid sid : Nat)
    (wl : WorkoutLog) (k : Nat) :
    (saveStepsCommitted db uid sid wl k).map rowFields =
      db.map rowFields ++ (bufferInserts uid sid wl).take k := by
  simp [saveStepsCommitted, foldl_log_set_map_rowFields]

theorem map_rowFields_filter_congr (p : WorkoutSetRow → Bool) (q : SetFields → Bool)
    (hpq : ∀ r, p r = q (rowFields r)) (db : List WorkoutSetRow) :
    (db.filter p).map rowFields = (db.map rowFields).filter q := by
  induction db with
  | nil => rfl
  | cons r tl ih =>
    rw [List.filter_cons, List.map_cons, List.filter_cons, ← hpq r]
    by_cases h : p r <;> simp [h, ih]

theorem zipRows_map_snd {α γ : Type} (sets : List α) (g : α → γ) :
    (((List.range' 1 sets.length).zip sets).map (fun q => g q.2)) = sets.map g := by
  have h : ((List.range' 1 sets.length).zip sets).map Prod.snd = sets :=
    List.map_snd_zip _ _ (by simp)
  have h2 := congrArg (List.map g) h
  rw [List.map_map] at h2
  exact h2

theorem zipRows_map_fst {α : Type} (sets : List α) :
    (((List.range' 1 sets.length).zip sets).map (fun q => q.1)) = List.range' 1 sets.length :=
  List.map_fst_zip _ _ (by simp)

/-! ## Claim theorems -/

/-- Claim C1: the Save Entire Workout handler is claimed to persist the whole
buffer in one atomic transaction.  In the code each `log_set` call opens its
own sqlite connection and commits before returning, so an interruption after
the first call leaves exactly one of the two buffered sets durably visible —
a strict non-empty subset of the buffer. -/
theorem save_not_atomic :
    saveStepsCommitted [] 1 2 [(5, [((100 : ℚ), 5, 7), ((110 : ℚ), 3, 8)])] 1 =
      [{ id := 1, user_id := 1, session_id := 2, exercise_id := 5,
         weight := 100, reps := 5, set_number := 1, rpe_rating := 7 }] ∧
    (saveEntireWorkout [] 1 2 [(5, [((100 : ℚ), 5, 7), ((110 : ℚ), 3, 8)])]).length = 2 := by
  exact ⟨rfl, rfl⟩

/-- Claim C4: with the bodyweight box checked, a positive profile weight `W`
and added weight `A` append `(W + A, reps, rpe)` to the buffer, while an
unset or zero profile weight yields `MissingBodyweight` with the buffer
returned unchanged. -/
theorem addSet_bodyweight (W A : ℚ) (reps rpe : Nat) (l : List BufTuple)
    (hW : 0 < W) (hreps : 1 ≤ reps) :
    addSet (some W) true A reps rpe l = (l ++ [(W + A, reps, rpe)], none) ∧
    addSet none true A reps rpe l = (l, some ValidationError.MissingBodyweight) ∧
    addSet (some 0) true A reps rpe l = (l, some ValidationError.MissingBodyweight) := by
  have h1 : ¬(W = 0) := ne_of_gt hW
  have h2 : ¬(reps ≤ 0) := by omega
  refine ⟨?_, ?_, ?_⟩ <;> simp [addSet, h1, h2]

/-- Witness for `addSet_bodyweight` at the spec's own example:
profile 70 kg plus 10 kg added records 80.0. -/
theorem addSet_bodyweight_witness :
    (0 : ℚ) < 70 ∧ 1 ≤ 5 ∧
    addSet (some 70) true 10 5 7 [] = ([((80 : ℚ), 5, 7)], none) ∧
    addSet none true 10 5 7 [] = ([], some ValidationError.MissingBodyweight) ∧
    addSet (some 0) true 10 5 7 [] = ([], some ValidationError.MissingBodyweight) := by
  have h := addSet_bodyweight 70 10 5 7 [] (by norm_num) (by norm_num)
  have h80 : (70 : ℚ) + 10 = 80 := by norm_num
  refine ⟨by norm_num, by norm_num, ?_, h.2.1, h.2.2⟩
  have h1 := h.1
  rw [h80] at h1
  exact h1

/-- Claim C5: after `delete_session sid`, the by-session query for `sid` is
empty and no `workout_sets` row referencing `sid` survives — no orphans. -/
theorem delete_session_no_orphans (sessions : List SessionRow) (db : List WorkoutSetRow)
    (exercises : List ExerciseRow) (sid : Nat) :
    get_workout_sets_by_session (delete_session sessions db sid).2 exercises sid = [] ∧
    (delete_session sessions db sid).2.all (fun r => !(r.session_id == sid)) = true := by
  constructor
  · simp only [get_workout_sets_by_session, delete_session, List.filter_eq_nil_iff]
    intro r hr
    simp only [List.mem_filter, Bool.not_eq_eq_eq_not, Bool.not_true, beq_eq_false_iff_ne,
      ne_eq] at hr
    simp [hr.2]
  · simp only [delete_session, List.all_eq_true, List.mem_filter]
    intro r hr
    exact hr.2

/-- Claim C6: the reports compute the estimated 1RM of a set as
`weight * 36 / (37 - reps)`; at weight 100 and reps 5 this is exactly 112.5,
and the volume load of that set is 500. -/
theorem report_brzycki (rows : List WorkoutSetRow) (p : WorkoutSetRow × ℚ)
    (hp : p ∈ one_rm_column rows) (h37 : p.1.reps < 37) :
    p.2 = one_rm p.1.weight p.1.reps ∧
    p.2 = p.1.weight * 36 / (37 - (p.1.reps : ℚ)) ∧
    one_rm 100 5 = 112.5 ∧ volume_load 100 5 = 500 := by
  refine ⟨?_, ?_, by norm_num [one_rm], by norm_num [volume_load]⟩ <;>
  · simp only [one_rm_column, List.mem_map] at hp
    obtain ⟨r, hr, rfl⟩ := hp
    rfl

/-- Witness for `report_brzycki`: a concrete persisted set with weight 100 and
reps 5, whose computed column value is 112.5. -/
theorem report_brzycki_witness :
    ((⟨1, 1, 2, 3, 100, 5, 1, 7⟩ : WorkoutSetRow), (112.5 : ℚ)) ∈
      one_rm_column [⟨1, 1, 2, 3, 100, 5, 1, 7⟩] ∧
    (⟨1, 1, 2, 3, 100, 5, 1, 7⟩ : WorkoutSetRow).reps < 37 ∧
    ((112.5 : ℚ) = one_rm (⟨1, 1, 2, 3, 100, 5, 1, 7⟩ : WorkoutSetRow).weight
        (⟨1, 1, 2, 3, 100, 5, 1, 7⟩ : WorkoutSetRow).reps ∧
      (112.5 : ℚ) = (⟨1, 1, 2, 3, 100, 5, 1, 7⟩ : WorkoutSetRow).weight * 36 /
        (37 - ((⟨1, 1, 2, 3, 100, 5, 1, 7⟩ : WorkoutSetRow).reps : ℚ)) ∧
      one_rm 100 5 = 112.5 ∧ volume_load 100 5 = 500) := by
  have hp : ((⟨1, 1, 2, 3, 100, 5, 1, 7⟩ : WorkoutSetRow), (112.5 : ℚ)) ∈
      one_rm_column [⟨1, 1, 2, 3, 100, 5, 1, 7⟩] := by
    simp only [one_rm_column, List.map_cons, List.map_nil, List.mem_singleton]
    norm_num
  exact ⟨hp, by norm_num, report_brzycki _ _ hp (by norm_num)⟩

/-- Claim C8: `authenticate_user` returns the same `(none, none)` whether the
username is unknown or the stored hash does not verify, so the caller cannot
tell the two failure causes apart from the returned value. -/
theorem authenticate_failure_uniform (verify_password : String → String → Bool)
    (users : List UserRow) (username password : String)
    (h : ∀ u, users.find? (fun x => x.username == username) = some u →
      verify_password password u.password_hash = false) :
    authenticate_user verify_password users username password = (none, none) := by
  unfold authenticate_user
  cases hfind : users.find? (fun x => x.username == username) with
  | none => rfl
  | some row => simp [h row hfind]

/-- Witness for `authenticate_failure_uniform`: an unknown username against a
one-user table, with hash equality as the verify routine. -/
theorem authenticate_failure_uniform_witness :
    (∀ u : UserRow, List.find? (fun x => x.username == "bob")
        [(⟨1, "alice", "h1", 0⟩ : UserRow)] = some u →
      (fun p h => p == h) "pw" u.password_hash = false) ∧
    authenticate_user (fun p h => p == h) [(⟨1, "alice", "h1", 0⟩ : UserRow)]
      "bob" "pw" = (none, none) := by
  have hh : ∀ u : UserRow, List.find? (fun x => x.username == "bob")
      [(⟨1, "alice", "h1", 0⟩ : UserRow)] = some u →
      (fun p h => p == h) "pw" u.password_hash = false := by
    intro u hu
    have hnone : List.find? (fun x => x.username == "bob")
        [(⟨1, "alice", "h1", 0⟩ : UserRow)] = none := by rfl
    rw [hnone] at hu
    exact Option.noConfusion hu
  exact ⟨hh, authenticate_failure_uniform _ _ _ _ hh⟩

/-- Claim C9: deleting sets by id-list removes exactly the rows with those
ids; every surviving row is one of the original rows, unchanged and in the
original order (sublist), so `set_number` gaps are preserved and no
renumbering happens. -/
theorem delete_workout_sets_frame (db : List WorkoutSetRow) (set_ids : List Nat)
    (r : WorkoutSetRow) :
    (r ∈ delete_workout_sets db set_ids ↔ r ∈ db ∧ r.id ∉ set_ids) ∧
    (delete_workout_sets db set_ids).Sublist db := by
  unfold delete_workout_sets
  by_cases h : set_ids = []
  · subst h
    simp
  · simp only [h, if_neg, List.mem_filter, Bool.not_eq_eq_eq_not, Bool.not_true,
      ite_false]
    constructor
    · constructor
      · intro hr
        refine ⟨hr.1, ?_⟩
        have := hr.2
        simpa using this
      · intro hr
        refine ⟨hr.1, ?_⟩
        simpa using hr.2
    · exact List.filter_sublist _

/-- Claim C10: in `get_exercises`, a `none` or empty category-id list drops
the category filter entirely (all exercises matching only the name filter are
returned), and an empty search string drops the name filter. -/
theorem get_exercises_empty_filters (exercises : List ExerciseRow)
    (exercise_categories : List (Nat × Nat)) (term : String) (cs : List Nat) :
    get_exercises exercises exercise_categories (some []) term =
      get_exercises exercises exercise_categories none term ∧
    get_exercises exercises exercise_categories none term =
      (if term = "" then exercises
       else exercises.filter (fun e => likeContains e.name term)) ∧
    get_exercises exercises exercise_categories (some cs) "" =
      (if cs = [] then exercises
       else exercises.filter (fun e => exercise_categories.any (fun lk =>
         lk.1 == e.id && cs.contains lk.2))) := by
  refine ⟨?_, ?_, ?_⟩
  · rfl
  · by_cases ht : term = "" <;> simp [get_exercises, ht]
  · by_cases hc : cs = [] <;> simp [get_exercises, hc]

/-! ## Buffer-to-storage lemmas for the save loop -/

theorem bufferInserts_cons (uid sid : Nat) (p : Nat × List BufTuple) (tl : WorkoutLog) :
    bufferInserts uid sid (p :: tl) = entryRows uid sid p.1 p.2 ++ bufferInserts uid sid tl := by
  simp [bufferInserts, entryRows]

theorem entryRows_session_exercise (uid sid ex : Nat) (sets : List BufTuple) :
    ∀ f ∈ entryRows uid sid ex sets, f.session_id = sid ∧ f.exercise_id = ex := by
  intro f hf
  simp only [entryRows, List.mem_map] at hf
  obtain ⟨q, hq, rfl⟩ := hf
  exact ⟨rfl, rfl⟩

theorem filter_entryRows_self (uid sid ex : Nat) (sets : List BufTuple) :
    (entryRows uid sid ex sets).filter
      (fun f => f.session_id == sid && f.exercise_id == ex) = entryRows uid sid ex sets := by
  rw [List.filter_eq_self]
  intro f hf
  obtain ⟨h1, h2⟩ := entryRows_session_exercise uid sid ex sets f hf
  simp [h1, h2]

theorem filter_entryRows_ne (uid sid ex e : Nat) (sets : List BufTuple) (h : ex ≠ e) :
    (entryRows uid sid ex sets).filter
      (fun f => f.session_id == sid && f.exercise_id == e) = [] := by
  rw [List.filter_eq_nil_iff]
  intro f hf
  obtain ⟨h1, h2⟩ := entryRows_session_exercise uid sid ex sets f hf
  simp [h1, h2, h]

theorem filter_bufferInserts_of_not_mem (uid sid e : Nat) (wl : WorkoutLog)
    (h : e ∉ wl.map Prod.fst) :
    (bufferInserts uid sid wl).filter
      (fun f => f.session_id == sid && f.exercise_id == e) = [] := by
  induction wl with
  | nil => rfl
  | cons p tl ih =>
    simp only [List.map_cons, List.mem_cons, not_or] at h
    rw [bufferInserts_cons, List.filter_append,
      filter_entryRows_ne uid sid p.1 e p.2 (Ne.symm h.1), ih h.2]
    rfl

theorem filter_bufferInserts_eq (uid sid e : Nat) (sets : List BufTuple) (wl : WorkoutLog)
    (hmem : (e, sets) ∈ wl) (hnodup : (wl.map Prod.fst).Nodup) :
    (bufferInserts uid sid wl).filter
      (fun f => f.session_id == sid && f.exercise_id == e) = entryRows uid sid e sets := by
  induction wl with
  | nil => cases hmem
  | cons p tl ih =>
    obtain ⟨ex, ss⟩ := p
    rw [bufferInserts_cons, List.filter_append]
    simp only [List.map_cons, List.nodup_cons] at hnodup
    rcases List.mem_cons.mp hmem with heq | hmem'
    · obtain ⟨rfl, rfl⟩ := Prod.mk.injEq .. ▸ heq
      rw [filter_entryRows_self uid sid e sets,
        filter_bufferInserts_of_not_mem uid sid e tl hnodup.1, List.append_nil]
    · have hne : ex ≠ e := by
        intro hpe
        apply hnodup.1
        rw [hpe]
        exact List.mem_map.mpr ⟨(e, sets), hmem', rfl⟩
      rw [filter_entryRows_ne uid sid ex e ss hne, ih hmem' hnodup.2, List.nil_append]

/-- Claim C2: committing the buffer writes exactly one row per buffered set of
an exercise, with `set_number` equal to the 1-based position: on a fresh
session the persisted `(session, exercise)` rows carry set_numbers 1..N in
entry order and the original `(weight, reps, rpe)` tuples in order. -/
theorem commit_set_numbers (uid sid e : Nat) (wl : WorkoutLog) (sets : List BufTuple)
    (hmem : (e, sets) ∈ wl) (hnodup : (wl.map Prod.fst).Nodup)
    (hvalid : ∀ t ∈ sets, 0 ≤ t.1 ∧ 1 ≤ t.2.1 ∧ t.2.2 ≤ 10) :
    (setsForSessionExercise (saveEntireWorkout [] uid sid wl) sid e).length = sets.length ∧
    (setsForSessionExercise (saveEntireWorkout [] uid sid wl) sid e).map
        (fun r => r.set_number) = List.range' 1 sets.length ∧
    (setsForSessionExercise (saveEntireWorkout [] uid sid wl) sid e).map
        (fun r => (r.weight, r.reps, r.rpe_rating)) = sets := by
  have hkey : (setsForSessionExercise (saveEntireWorkout [] uid sid wl) sid e).map rowFields
      = entryRows uid sid e sets := by
    unfold setsForSessionExercise
    rw [map_rowFields_filter_congr (fun r => r.session_id == sid && r.exercise_id == e)
        (fun f => f.session_id == sid && f.exercise_id == e) (fun r => rfl)
        (saveEntireWorkout [] uid sid wl),
      saveEntireWorkout_map_rowFields]
    simp only [List.map_nil, List.nil_append]
    exact filter_bufferInserts_eq uid sid e sets wl hmem hnodup
  refine ⟨?_, ?_, ?_⟩
  · have h := congrArg List.length hkey
    rw [List.length_map] at h
    rw [h]
    simp [entryRows, List.length_zip]
  · have h2 : (setsForSessionExercise (saveEntireWorkout [] uid sid wl) sid e).map
        (fun r => r.set_number) = (entryRows uid sid e sets).map (fun f => f.set_number) := by
      rw [← hkey, List.map_map]
      rfl
    have h3 : (entryRows uid sid e sets).map (fun f => f.set_number)
        = ((List.range' 1 sets.length).zip sets).map (fun q => q.1) := by
      rw [entryRows, List.map_map]
      rfl
    rw [h2, h3, zipRows_map_fst]
  · have h2 : (setsForSessionExercise (saveEntireWorkout [] uid sid wl) sid e).map
        (fun r => (r.weight, r.reps, r.rpe_rating))
        = (entryRows uid sid e sets).map (fun f => (f.weight, f.reps, f.rpe_rating)) := by
      rw [← hkey, List.map_map]
      rfl
    have h3 : (entryRows uid sid e sets).map (fun f => (f.weight, f.reps, f.rpe_rating))
        = sets.map id := by
      rw [entryRows, List.map_map]
      exact zipRows_map_snd sets id
    rw [h2, h3, List.map_id]

/-- Witness for `commit_set_numbers`: a buffer with two sets for exercise 3
saved into fresh session 2 yields rows numbered 1 and 2 carrying the input
tuples. -/
theorem commit_set_numbers_witness :
    ((3, [((100 : ℚ), 5, 7), ((110 : ℚ), 3, 8)]) ∈
        ([(3, [((100 : ℚ), 5, 7), ((110 : ℚ), 3, 8)])] : WorkoutLog)) ∧
    (([(3, [((100 : ℚ), 5, 7), ((110 : ℚ), 3, 8)])] : WorkoutLog).map Prod.fst).Nodup ∧
    (∀ t ∈ [((100 : ℚ), 5, 7), ((110 : ℚ), 3, 8)], 0 ≤ t.1 ∧ 1 ≤ t.2.1 ∧ t.2.2 ≤ 10) ∧
    ((setsForSessionExercise
        (saveEntireWorkout [] 1 2 [(3, [((100 : ℚ), 5, 7), ((110 : ℚ), 3, 8)])]) 2 3).length
        = 2 ∧
      (setsForSessionExercise
        (saveEntireWorkout [] 1 2 [(3, [((100 : ℚ), 5, 7), ((110 : ℚ), 3, 8)])]) 2 3).map
          (fun r => r.set_number) = List.range' 1 2 ∧
      (setsForSessionExercise
        (saveEntireWorkout [] 1 2 [(3, [((100 : ℚ), 5, 7), ((110 : ℚ), 3, 8)])]) 2 3).map
          (fun r => (r.weight, r.reps, r.rpe_rating))
        = [((100 : ℚ), 5, 7), ((110 : ℚ), 3, 8)]) := by
  refine ⟨by simp, by simp, by decide, ?_⟩
  exact commit_set_numbers 1 2 3 [(3, [((100 : ℚ), 5, 7), ((110 : ℚ), 3, 8)])]
    [((100 : ℚ), 5, 7), ((110 : ℚ), 3, 8)] (by simp) (by simp) (by decide)

theorem filter_bufferInserts_session (uid sid : Nat) (exercises : List ExerciseRow)
    (wl : WorkoutLog) (hex : ∀ p ∈ wl, ∃ e ∈ exercises, e.id = p.1) :
    (bufferInserts uid sid wl).filter
      (fun f => f.session_id == sid && exercises.any (fun ex => ex.id == f.exercise_id))
      = bufferInserts uid sid wl := by
  rw [List.filter_eq_self]
  intro f hf
  simp only [bufferInserts, List.mem_flatMap] at hf
  obtain ⟨p, hp, hfp⟩ := hf
  obtain ⟨q, hq, rfl⟩ := List.mem_map.mp hfp
  obtain ⟨ex, hex1, hex2⟩ := hex p hp
  simp only [mkSetFields, beq_self_eq_true, Bool.true_and, List.any_eq_true]
  exact ⟨ex, hex1, by simp [hex2]⟩

theorem bufferInserts_sums (uid sid : Nat) (wl : WorkoutLog) :
    (bufferInserts uid sid wl).length = bufferSetCount wl ∧
    ((bufferInserts uid sid wl).map (fun f => f.reps)).sum = bufferTotalReps wl ∧
    ((bufferInserts uid sid wl).map (fun f => f.weight * (f.reps : ℚ))).sum
      = bufferVolumeLoad wl := by
  induction wl with
  | nil => exact ⟨rfl, rfl, rfl⟩
  | cons p tl ih =>
    obtain ⟨ih1, ih2, ih3⟩ := ih
    rw [bufferInserts_cons]
    refine ⟨?_, ?_, ?_⟩
    · rw [List.length_append, ih1]
      simp [bufferSetCount, entryRows, List.length_zip]
    · rw [List.map_append, List.sum_append]
      have he : (entryRows uid sid p.1 p.2).map (fun f => f.reps)
          = p.2.map (fun t => t.2.1) := by
        rw [entryRows, List.map_map]
        exact zipRows_map_snd p.2 (fun t => t.2.1)
      rw [he, ih2]
      simp [bufferTotalReps]
    · rw [List.map_append, List.sum_append]
      have he : (entryRows uid sid p.1 p.2).map (fun f => f.weight * (f.reps : ℚ))
          = p.2.map (fun t => t.1 * (t.2.1 : ℚ)) := by
        rw [entryRows, List.map_map]
        exact zipRows_map_snd p.2 (fun t => t.1 * (t.2.1 : ℚ))
      rw [he, ih3]
      simp [bufferVolumeLoad]

/-- Claim C3: committing a buffer into a fresh session and reading it back
through the by-session report reproduces the set count, the total reps, and a
volume-load sum equal to `Σ weight*reps` computed directly from the buffered
input tuples. -/
theorem commit_roundtrip (db : List WorkoutSetRow) (exercises : List ExerciseRow)
    (uid sid : Nat) (wl : WorkoutLog)
    (hfresh : ∀ r ∈ db, r.session_id ≠ sid)
    (hex : ∀ p ∈ wl, ∃ e ∈ exercises, e.id = p.1) :
    total_sets (get_workout_sets_by_session (saveEntireWorkout db uid sid wl) exercises sid)
      = bufferSetCount wl ∧
    total_reps (get_workout_sets_by_session (saveEntireWorkout db uid sid wl) exercises sid)
      = bufferTotalReps wl ∧
    total_volume_load
        (get_workout_sets_by_session (saveEntireWorkout db uid sid wl) exercises sid)
      = bufferVolumeLoad wl := by
  have hkey : (get_workout_sets_by_session (saveEntireWorkout db uid sid wl) exercises sid).map
      rowFields = bufferInserts uid sid wl := by
    unfold get_workout_sets_by_session
    rw [map_rowFields_filter_congr
        (fun r => r.session_id == sid && exercises.any (fun e => e.id == r.exercise_id))
        (fun f => f.session_id == sid && exercises.any (fun e => e.id == f.exercise_id))
        (fun r => rfl) (saveEntireWorkout db uid sid wl),
      saveEntireWorkout_map_rowFields, List.filter_append]
    have hdb : (db.map rowFields).filter
        (fun f => f.session_id == sid && exercises.any (fun e => e.id == f.exercise_id))
        = [] := by
      rw [List.filter_eq_nil_iff]
      intro f hf
      obtain ⟨r, hr, rfl⟩ := List.mem_map.mp hf
      simp [rowFields, hfresh r hr]
    rw [hdb, filter_bufferInserts_session uid sid exercises wl hex, List.nil_append]
  obtain ⟨hs1, hs2, hs3⟩ := bufferInserts_sums uid sid wl
  refine ⟨?_, ?_, ?_⟩
  · unfold total_sets
    have h := congrArg List.length hkey
    rw [List.length_map] at h
    rw [h, hs1]
  · unfold total_reps
    have h : (get_workout_sets_by_session (saveEntireWorkout db uid sid wl) exercises sid).map
        (fun r => r.reps) = (bufferInserts uid sid wl).map (fun f => f.reps) := by
      rw [← hkey, List.map_map]
      rfl
    rw [h, hs2]
  · unfold total_volume_load
    have h : (get_workout_sets_by_session (saveEntireWorkout db uid sid wl) exercises sid).map
        (fun r => r.weight * (r.reps : ℚ))
        = (bufferInserts uid sid wl).map (fun f => f.weight * (f.reps : ℚ)) := by
      rw [← hkey, List.map_map]
      rfl
    rw [h, hs3]

/-- Witness for `commit_roundtrip`: two sets for exercise 3 saved into fresh
session 2, next to an unrelated row of session 1; the report totals equal the
sums over the input tuples (2 sets, 15 reps, volume 100*5 + 50*10 = 1000). -/
theorem commit_roundtrip_witness :
    (∀ r ∈ [(⟨9, 1, 1, 3, (50 : ℚ), 10, 1, 5⟩ : WorkoutSetRow)], r.session_id ≠ 2) ∧
    (∀ p ∈ ([(3, [((100 : ℚ), 5, 7), ((50 : ℚ), 10, 6)])] : WorkoutLog),
      ∃ e ∈ [(⟨3, "Bench", "barbell"⟩ : ExerciseRow)], e.id = p.1) ∧
    (total_sets (get_workout_sets_by_session
        (saveEntireWorkout [⟨9, 1, 1, 3, (50 : ℚ), 10, 1, 5⟩] 1 2
          [(3, [((100 : ℚ), 5, 7), ((50 : ℚ), 10, 6)])])
        [⟨3, "Bench", "barbell"⟩] 2)
      = bufferSetCount [(3, [((100 : ℚ), 5, 7), ((50 : ℚ), 10, 6)])] ∧
    total_reps (get_workout_sets_by_session
        (saveEntireWorkout [⟨9, 1, 1, 3, (50 : ℚ), 10, 1, 5⟩] 1 2
          [(3, [((100 : ℚ), 5, 7), ((50 : ℚ), 10, 6)])])
        [⟨3, "Bench", "barbell"⟩] 2)
      = bufferTotalReps [(3, [((100 : ℚ), 5, 7), ((50 : ℚ), 10, 6)])] ∧
    total_volume_load (get_workout_sets_by_session
        (saveEntireWorkout [⟨9, 1, 1, 3, (50 : ℚ), 10, 1, 5⟩] 1 2
          [(3, [((100 : ℚ), 5, 7), ((50 : ℚ), 10, 6)])])
        [⟨3, "Bench", "barbell"⟩] 2)
      = bufferVolumeLoad [(3, [((100 : ℚ), 5, 7), ((50 : ℚ), 10, 6)])]) ∧
    bufferSetCount [(3, [((100 : ℚ), 5, 7), ((50 : ℚ), 10, 6)])] = 2 ∧
    bufferTotalReps [(3, [((100 : ℚ), 5, 7), ((50 : ℚ), 10, 6)])] = 15 ∧
    bufferVolumeLoad [(3, [((100 : ℚ), 5, 7), ((50 : ℚ), 10, 6)])] = 1000 := by
  refine ⟨by decide, ?_, ?_, by decide, by decide, by norm_num [bufferVolumeLoad]⟩
  · intro p hp
    refine ⟨⟨3, "Bench", "barbell"⟩, by simp, ?_⟩
    simp only [List.mem_singleton] at hp
    rw [hp]
  · exact commit_roundtrip [⟨9, 1, 1, 3, (50 : ℚ), 10, 1, 5⟩] [⟨3, "Bench", "barbell"⟩] 1 2
      [(3, [((100 : ℚ), 5, 7), ((50 : ℚ), 10, 6)])] (by decide)
      (by
        intro p hp
        refine ⟨⟨3, "Bench", "barbell"⟩, by simp, ?_⟩
        simp only [List.mem_singleton] at hp
        rw [hp])

/-- Claim C7: the code does not reject reps greater than 36 and does not omit
them from the 1RM series: the Add Set handler accepts reps 37 and 38 (only
`reps ≥ 1` is enforced), the By Exercise report evaluates the Brzycki
expression on every row, at reps 37 the divisor `37 - reps` is zero, and at
reps 38 the computed value is the finite sign-flipped `-3600`, kept in the
series. -/
theorem reps_upper_bound_missing :
    (addSet (some 70) false 100 37 5 []).2 = none ∧
    (addSet (some 70) false 100 38 5 []).2 = none ∧
    one_rm_column [⟨1, 1, 2, 3, 100, 37, 1, 5⟩] =
      [((⟨1, 1, 2, 3, 100, 37, 1, 5⟩ : WorkoutSetRow), 100 * 36 / (37 - 37))] ∧
    one_rm_column [⟨1, 1, 2, 3, 100, 38, 1, 5⟩] =
      [((⟨1, 1, 2, 3, 100, 38, 1, 5⟩ : WorkoutSetRow), -3600)] ∧
    one_rm 100 38 < 0 := by
  refine ⟨rfl, rfl, ?_, ?_, by norm_num [one_rm]⟩ <;>
    simp only [one_rm_column, List.map_cons, List.map_nil, List.cons.injEq, and_true,
      Prod.mk.injEq, true_and] <;> norm_num

end PowerScouter
